import Mathlib

/-!
Shallow embedding of the `pumpwood-services` client library
(`src/dist/index.js`): the `ApiService` transport wrapper, the `safeAwait`
combinator and the operation helpers (`ListService`, `RetrieveService`,
`RetrieveFileService`, `SaveService`, `DeleteService`, `UploadFileService`),
together with the action services that the package declares and tests but
whose implementation is not part of the sources (those are modelled from
the spec).

JavaScript values that flow through the library are modelled by `Json`
(with `Json.null` embedding the JS `null`); the network is an explicit
`transport : FetchRequest → HttpResponse` argument and every operation
returns the list of fetches it performed next to its result, so that
"zero network calls" is a statement about the trace.
-/

/-- JSON values as the library passes them around; `Json.null` embeds the
JavaScript `null`. Numbers are restricted to integers, which covers every
value the library itself constructs. -/
inductive Json where
  | null : Json
  | bool : Bool → Json
  | num : Int → Json
  | str : String → Json
  | arr : List Json → Json
  | obj : List (String × Json) → Json

/-- JavaScript truthiness of an embedded value (`if (body)` and friends). -/
def jsTruthy : Json → Bool
  | .null => false
  | .bool b => b
  | .num n => n != 0
  | .str s => s != ""
  | .arr _ => true
  | .obj _ => true

/-- JSON string escaping used by `JSON.stringify`. -/
def escapeJsonChar (c : Char) : String :=
  if c = '"' then "\\\""
  else if c = '\\' then "\\\\"
  else if c = '\n' then "\\n"
  else if c = '\t' then "\\t"
  else if c = '\r' then "\\r"
  else String.singleton c

/-- Quote a string as a JSON string literal. -/
def quoteJson (s : String) : String :=
  "\"" ++ String.join (s.data.map escapeJsonChar) ++ "\""

mutual

/-- `JSON.stringify` on embedded values. -/
def Json.stringify : Json → String
  | .null => "null"
  | .bool true => "true"
  | .bool false => "false"
  | .num n => toString n
  | .str s => quoteJson s
  | .arr xs => "[" ++ String.intercalate "," (stringifyList xs) ++ "]"
  | .obj fs => "\x7b" ++ String.intercalate "," (stringifyFields fs) ++ "\x7d"

/-- Serialize the elements of a JSON array. -/
def stringifyList : List Json → List String
  | [] => []
  | x :: xs => Json.stringify x :: stringifyList xs

/-- Serialize the fields of a JSON object, in insertion order. -/
def stringifyFields : List (String × Json) → List String
  | [] => []
  | (k, v) :: fs => (quoteJson k ++ ":" ++ Json.stringify v) :: stringifyFields fs

end

/-- Errors thrown inside the library: `Err.error m` is `new Error(m)`;
`Err.jsonParse raw` is the rejection of `response.json()` on an unparsable
body `raw`. -/
inductive Err where
  | error : String → Err
  | jsonParse : String → Err
deriving DecidableEq

/-- The `message` property of a thrown error. -/
def Err.message : Err → String
  | .error m => m
  | .jsonParse raw => "Unexpected token in JSON: " ++ raw

/-- UTF-8 bytes of a character, as used by URL encoding. -/
def utf8Bytes (c : Char) : List Nat :=
  let n := c.toNat
  if n < 0x80 then [n]
  else if n < 0x800 then [0xC0 + n / 0x40, 0x80 + n % 0x40]
  else if n < 0x10000 then
    [0xE0 + n / 0x1000, 0x80 + n / 0x40 % 0x40, 0x80 + n % 0x40]
  else
    [0xF0 + n / 0x40000, 0x80 + n / 0x1000 % 0x40, 0x80 + n / 0x40 % 0x40,
      0x80 + n % 0x40]

/-- Upper-case hexadecimal digit. -/
def hexDigit (n : Nat) : Char :=
  if n < 10 then Char.ofNat (48 + n) else Char.ofNat (55 + n)

/-- Percent-encode one byte. -/
def percentByte (b : Nat) : String :=
  "%" ++ String.singleton (hexDigit (b / 16)) ++ String.singleton (hexDigit (b % 16))

/-- `application/x-www-form-urlencoded` encoding of one character, as
`URLSearchParams.toString()` performs it. -/
def formUrlEncodeChar (c : Char) : String :=
  if c = ' ' then "+"
  else if c.isAlphanum || c = '*' || c = '-' || c = '.' || c = '_' then
    String.singleton c
  else String.join ((utf8Bytes c).map percentByte)

/-- `application/x-www-form-urlencoded` encoding of a string. -/
def formUrlEncode (s : String) : String :=
  String.join (s.data.map formUrlEncodeChar)

/-- Query parameters: an insertion-ordered mapping of string keys to
string values. -/
abbrev QueryParams := List (String × String)

/-- `new URLSearchParams(queryParams).toString()`: key=value pairs in
insertion order, joined by ampersands. -/
def queryString (qp : QueryParams) : String :=
  String.intercalate "&" (qp.map fun p => formUrlEncode p.1 ++ "=" ++ formUrlEncode p.2)

/-- `baseUrl.replace(/\/$/, "")`: strip one trailing slash. -/
def stripTrailingSlash (s : String) : String :=
  if s.data.getLast? = some '/' then String.mk s.data.dropLast else s

/-- `endpoint.replace(/^\//, "")`: strip one leading slash. -/
def stripLeadingSlash (s : String) : String :=
  match s.data with
  | '/' :: rest => String.mk rest
  | _ => s

/-- URL construction shared by `request`, `uploadRequest` and
`fileRequest`: normalized base joined to the endpoint, with the query
string appended exactly when `queryParams` is provided and non-empty. -/
def buildUrl (baseUrl endpoint : String) (queryParams : Option QueryParams) : String :=
  let url := stripTrailingSlash baseUrl ++ "/" ++ stripLeadingSlash endpoint
  match queryParams with
  | some qp => if qp.length > 0 then url ++ "?" ++ queryString qp else url
  | none => url

/-- A file value handed to `UploadFileService` (a JS `File` object is
always truthy; absence is modelled by `Option`). -/
structure FileVal where
  name : String
  bytes : List Nat
deriving DecidableEq

/-- One entry of a `FormData` body. -/
inductive FormEntry where
  | str : String → FormEntry
  | file : FileVal → FormEntry
deriving DecidableEq

/-- The body attached to an outbound fetch: absent, a serialized JSON
string, or multipart form data. -/
inductive RequestBody where
  | absent : RequestBody
  | text : String → RequestBody
  | form : List (String × FormEntry) → RequestBody
deriving DecidableEq

/-- One outbound `fetch(url, options)` call as the library issues it. -/
structure FetchRequest where
  method : String
  url : String
  headers : List (String × String)
  body : RequestBody
deriving DecidableEq

/-- The backend's answer to a fetch: status line, the text of the body,
the result of `response.json()` (`none` models a body on which JSON
parsing rejects) and the blob view used by file downloads. -/
structure HttpResponse where
  status : Nat
  statusText : String
  bodyText : String
  jsonBody : Option Json
  blobBytes : List Nat
  blobType : String

/-- The network, supplied explicitly: what response each request gets. -/
abbrev Transport := FetchRequest → HttpResponse

/-- `response.ok`: status in the 2xx range. -/
def respOk (r : HttpResponse) : Prop := 200 ≤ r.status ∧ r.status < 300

instance (r : HttpResponse) : Decidable (respOk r) :=
  inferInstanceAs (Decidable (200 ≤ r.status ∧ r.status < 300))

/-- The message thrown when `baseUrl` is falsy at call time. -/
def baseUrlMissingMsg : String :=
  "ApiService: baseUrl is missing. Ensure it is provided when creating the ApiService instance."

/-- The message of the `ApiError` thrown on a non-2xx response. -/
def apiErrorMsg (r : HttpResponse) : String :=
  "API Error: " ++ toString r.status ++ " " ++ r.statusText ++ " - " ++ r.bodyText

/-- The client configuration held by an `ApiService` instance. -/
structure ApiService where
  baseUrl : String
  token : String
deriving DecidableEq

/-- The `ApiService` constructor: stores the configuration unconditionally
(no validation happens at construction time). -/
def ApiService.mkService (baseUrl token : String) : ApiService :=
  { baseUrl := baseUrl, token := token }

/-- The file payload resolved by `fileRequest`: the downloaded bytes and
the blob's content type. -/
structure IFileData where
  data : List Nat
  contentType : String
deriving DecidableEq

/-- `ApiService.request`: throws if `baseUrl` is falsy, builds the URL,
sets the `Authorization` and `Content-Type` headers, serializes a truthy
body, performs one fetch, throws `API Error: …` on a non-2xx status,
resolves `null` on 204 and the parsed JSON body otherwise. The returned
list is the trace of fetches performed. -/
def ApiService.request (api : ApiService) (method endpoint : String)
    (body : Option Json) (queryParams : Option QueryParams)
    (transport : Transport) : List FetchRequest × Except Err Json :=
  if api.baseUrl = "" then
    ([], .error (.error baseUrlMissingMsg))
  else
    let url := buildUrl api.baseUrl endpoint queryParams
    let headers := [("Authorization", "Token " ++ api.token),
      ("Content-Type", "application/json")]
    let reqBody : RequestBody :=
      match body with
      | some v => if jsTruthy v then .text v.stringify else .absent
      | none => .absent
    let req : FetchRequest :=
      { method := method, url := url, headers := headers, body := reqBody }
    let resp := transport req
    ([req],
      if respOk resp then
        if resp.status = 204 then .ok .null
        else
          match resp.jsonBody with
          | some j => .ok j
          | none => .error (.jsonParse resp.bodyText)
      else .error (.error (apiErrorMsg resp)))

/-- `ApiService.uploadRequest`: like `request` but method fixed to POST,
no `Content-Type` header, and a multipart `FormData` body. -/
def ApiService.uploadRequest (api : ApiService) (endpoint : String)
    (formData : List (String × FormEntry)) (queryParams : Option QueryParams)
    (transport : Transport) : List FetchRequest × Except Err Json :=
  if api.baseUrl = "" then
    ([], .error (.error baseUrlMissingMsg))
  else
    let url := buildUrl api.baseUrl endpoint queryParams
    let headers := [("Authorization", "Token " ++ api.token)]
    let req : FetchRequest :=
      { method := "POST", url := url, headers := headers, body := .form formData }
    let resp := transport req
    ([req],
      if respOk resp then
        if resp.status = 204 then .ok .null
        else
          match resp.jsonBody with
          | some j => .ok j
          | none => .error (.jsonParse resp.bodyText)
      else .error (.error (apiErrorMsg resp)))

/-- `ApiService.fileRequest`: a GET that resolves the response body's
bytes (`Array.from(new Uint8Array(arrayBuffer))`) and the blob's type. -/
def ApiService.fileRequest (api : ApiService) (endpoint : String)
    (queryParams : Option QueryParams) (transport : Transport) :
    List FetchRequest × Except Err IFileData :=
  if api.baseUrl = "" then
    ([], .error (.error baseUrlMissingMsg))
  else
    let url := buildUrl api.baseUrl endpoint queryParams
    let headers := [("Authorization", "Token " ++ api.token)]
    let req : FetchRequest :=
      { method := "GET", url := url, headers := headers, body := .absent }
    let resp := transport req
    ([req],
      if respOk resp then
        .ok { data := resp.blobBytes, contentType := resp.blobType }
      else .error (.error (apiErrorMsg resp)))

/-- `safeAwait`: awaiting a settled promise (`Except ε α`) yields
`[data, null]` on fulfilment and `[null, error]` on rejection, the caught
error being the rejection value itself. -/
def safeAwait {α ε : Type} : Except ε α → Option α × Option ε
  | .ok a => (some a, none)
  | .error e => (none, some e)

/-- Map the destructured `safeAwait` pair through the normalization every
JSON-valued helper performs: `if (error) return [null, error];
return [response, null]`. Stated as the helper writes it, with `Json.null`
embedding the JS `null` in the value slot. -/
def ListService (api : ApiService) (modelClass : String) (body : Option Json)
    (queryParams : Option QueryParams) (transport : Transport) :
    List FetchRequest × (Json × Option Err) :=
  let requestBody : Json :=
    match body with
    | some v => if jsTruthy v then v else .obj []
    | none => .obj []
  match (match queryParams with
    | some qp =>
      api.request "POST" ("/" ++ modelClass ++ "/list/") (some requestBody)
        (some qp) transport
    | none =>
      api.request "POST" ("/" ++ modelClass ++ "/list/") (some requestBody)
        none transport) with
  | (trace, result) =>
    match safeAwait result with
    | (_, some e) => (trace, (.null, some e))
    | (response, none) => (trace, (response.getD .null, none))

/-- `RetrieveService`: GET `/{model}/retrieve/{pk}/` with no body. -/
def RetrieveService (api : ApiService) (modelClass : String) (pk : Int)
    (queryParams : Option QueryParams) (transport : Transport) :
    List FetchRequest × (Json × Option Err) :=
  match (match queryParams with
    | some qp =>
      api.request "GET" ("/" ++ modelClass ++ "/retrieve/" ++ toString pk ++ "/")
        none (some qp) transport
    | none =>
      api.request "GET" ("/" ++ modelClass ++ "/retrieve/" ++ toString pk ++ "/")
        none none transport) with
  | (trace, result) =>
    match safeAwait result with
    | (_, some e) => (trace, (.null, some e))
    | (response, none) => (trace, (response.getD .null, none))

/-- `RetrieveFileService`: validates `fileField` (default parameter
`"file"` when the argument is omitted), then GETs
`/{model}/retrieve-file/{pk}/` with the `file-field` query parameter. -/
def RetrieveFileService (api : ApiService) (modelClass : String) (pk : Int)
    (fileFieldArg : Option String) (transport : Transport) :
    List FetchRequest × (Option IFileData × Option Err) :=
  let fileField := fileFieldArg.getD "file"
  if fileField = "" then
    ([], (none, some (.error "RetrieveFileService: fileField is required")))
  else
    let queryParams : QueryParams := [("file-field", fileField)]
    match api.fileRequest ("/" ++ modelClass ++ "/retrieve-file/" ++ toString pk ++ "/")
      (some queryParams) transport with
    | (trace, result) =>
      match safeAwait result with
      | (_, some e) => (trace, (none, some e))
      | (response, none) => (trace, (response, none))

/-- `SaveService`: POST `/{model}/save/` with the record payload. -/
def SaveService (api : ApiService) (modelClass : String) (body : Json)
    (queryParams : Option QueryParams) (transport : Transport) :
    List FetchRequest × (Json × Option Err) :=
  match (match queryParams with
    | some qp =>
      api.request "POST" ("/" ++ modelClass ++ "/save/") (some body)
        (some qp) transport
    | none =>
      api.request "POST" ("/" ++ modelClass ++ "/save/") (some body)
        none transport) with
  | (trace, result) =>
    match safeAwait result with
    | (_, some e) => (trace, (.null, some e))
    | (response, none) => (trace, (response.getD .null, none))

/-- `DeleteService`: DELETE `/{model}/delete/{pk}/`, no body, no query
parameters. -/
def DeleteService (api : ApiService) (modelClass : String) (pk : Int)
    (transport : Transport) : List FetchRequest × (Json × Option Err) :=
  match api.request "DELETE" ("/" ++ modelClass ++ "/delete/" ++ toString pk ++ "/")
    none none transport with
  | (trace, result) =>
    match safeAwait result with
    | (_, some e) => (trace, (.null, some e))
    | (response, none) => (trace, (response.getD .null, none))

/-- `UploadFileService`: validates the file, builds the `FormData` with a
`__json__` part holding the serialized metadata and a `file` part, then
POSTs `/{model}/save/` through `uploadRequest`. -/
def UploadFileService (api : ApiService) (modelClass : String)
    (file : Option FileVal) (jsonData : Json) (queryParams : Option QueryParams)
    (transport : Transport) : List FetchRequest × (Json × Option Err) :=
  match file with
  | none => ([], (.null, some (.error "UploadFileService: file is required")))
  | some f =>
    let formData : List (String × FormEntry) :=
      [("__json__", .str jsonData.stringify), ("file", .file f)]
    match (match queryParams with
      | some qp =>
        api.uploadRequest ("/" ++ modelClass ++ "/save/") formData (some qp) transport
      | none =>
        api.uploadRequest ("/" ++ modelClass ++ "/save/") formData none transport) with
    | (trace, result) =>
      match safeAwait result with
      | (_, some e) => (trace, (.null, some e))
      | (response, none) => (trace, (response.getD .null, none))

/-- Modelled from the spec: the implementation of `ExecuteActionService`
is not among the sources (only its declaration, tests and README are).
Per the spec's helper table it validates `modelClass` ("modelClass is
required") and `actionName` ("actionName is required"), then POSTs
`/{model}/actions/{action}/{pk}/` with the parameters object (default
`\x7b\x7d`) as the JSON body, normalizing the outcome like every other
helper. -/
def ExecuteActionService (api : ApiService) (modelClass : String) (pk : Int)
    (actionName : String) (parameters : Option Json)
    (queryParams : Option QueryParams) (transport : Transport) :
    List FetchRequest × (Json × Option Err) :=
  if modelClass = "" then
    ([], (.null, some (.error "ExecuteActionService: modelClass is required")))
  else if actionName = "" then
    ([], (.null, some (.error "ExecuteActionService: actionName is required")))
  else
    let params : Json := (parameters.getD (.obj []))
    let path :=
      "/" ++ modelClass ++ "/actions/" ++ actionName ++ "/" ++ toString pk ++ "/"
    match (match queryParams with
      | some qp => api.request "POST" path (some params) (some qp) transport
      | none => api.request "POST" path (some params) none transport) with
    | (trace, result) =>
      match safeAwait result with
      | (_, some e) => (trace, (.null, some e))
      | (response, none) => (trace, (response.getD .null, none))

/-- Modelled from the spec: the implementation of
`ExecuteStaticActionService` is not among the sources. Per the spec's
helper table it performs the same validations as `ExecuteActionService`
and POSTs `/{model}/actions/{action}/0/` — the pk path segment fixed to
the literal `0` — with the parameters object (default `\x7b\x7d`) as the
JSON body. It is written out independently here (not as a call to
`ExecuteActionService`) so that its equivalence with `ExecuteActionService`
at `pk = 0` is a theorem rather than a definition. -/
def ExecuteStaticActionService (api : ApiService) (modelClass : String)
    (actionName : String) (parameters : Option Json)
    (queryParams : Option QueryParams) (transport : Transport) :
    List FetchRequest × (Json × Option Err) :=
  if modelClass = "" then
    ([], (.null, some (.error "ExecuteActionService: modelClass is required")))
  else if actionName = "" then
    ([], (.null, some (.error "ExecuteActionService: actionName is required")))
  else
    let params : Json := (parameters.getD (.obj []))
    let path := "/" ++ modelClass ++ "/actions/" ++ actionName ++ "/0/"
    match (match queryParams with
      | some qp => api.request "POST" path (some params) (some qp) transport
      | none => api.request "POST" path (some params) none transport) with
    | (trace, result) =>
      match safeAwait result with
      | (_, some e) => (trace, (.null, some e))
      | (response, none) => (trace, (response.getD .null, none))

/-- The fetch that `ApiService.request` issues when `baseUrl` is set. -/
def jsonRequestOf (api : ApiService) (method endpoint : String)
    (body : Option Json) (qp : Option QueryParams) : FetchRequest :=
  { method := method
    url := buildUrl api.baseUrl endpoint qp
    headers := [("Authorization", "Token " ++ api.token),
      ("Content-Type", "application/json")]
    body :=
      match body with
      | some v => if jsTruthy v then .text v.stringify else .absent
      | none => .absent }

/-- The fetch that `ApiService.uploadRequest` issues when `baseUrl` is set. -/
def uploadRequestOf (api : ApiService) (endpoint : String)
    (formData : List (String × FormEntry)) (qp : Option QueryParams) : FetchRequest :=
  { method := "POST"
    url := buildUrl api.baseUrl endpoint qp
    headers := [("Authorization", "Token " ++ api.token)]
    body := .form formData }

/-- The fetch that `ApiService.fileRequest` issues when `baseUrl` is set. -/
def fileRequestOf (api : ApiService) (endpoint : String)
    (qp : Option QueryParams) : FetchRequest :=
  { method := "GET"
    url := buildUrl api.baseUrl endpoint qp
    headers := [("Authorization", "Token " ++ api.token)]
    body := .absent }

/-- How `request`/`uploadRequest` settle once the response is in: reject
with the `API Error` on non-2xx, resolve `null` on 204, else the parsed
body. -/
def statusOutcome (resp : HttpResponse) : Except Err Json :=
  if respOk resp then
    if resp.status = 204 then .ok .null
    else
      match resp.jsonBody with
      | some j => .ok j
      | none => .error (.jsonParse resp.bodyText)
  else .error (.error (apiErrorMsg resp))

/-- How `fileRequest` settles once the response is in. -/
def fileOutcome (resp : HttpResponse) : Except Err IFileData :=
  if respOk resp then .ok { data := resp.blobBytes, contentType := resp.blobType }
  else .error (.error (apiErrorMsg resp))

lemma request_eq (api : ApiService) (method endpoint : String) (body : Option Json)
    (qp : Option QueryParams) (t : Transport) (hb : ¬ api.baseUrl = "") :
    api.request method endpoint body qp t =
      ([jsonRequestOf api method endpoint body qp],
        statusOutcome (t (jsonRequestOf api method endpoint body qp))) := by
  simp only [ApiService.request, if_neg hb]
  rfl

lemma uploadRequest_eq (api : ApiService) (endpoint : String)
    (formData : List (String × FormEntry)) (qp : Option QueryParams) (t : Transport)
    (hb : ¬ api.baseUrl = "") :
    api.uploadRequest endpoint formData qp t =
      ([uploadRequestOf api endpoint formData qp],
        statusOutcome (t (uploadRequestOf api endpoint formData qp))) := by
  simp only [ApiService.uploadRequest, if_neg hb]
  rfl

lemma fileRequest_eq (api : ApiService) (endpoint : String)
    (qp : Option QueryParams) (t : Transport) (hb : ¬ api.baseUrl = "") :
    api.fileRequest endpoint qp t =
      ([fileRequestOf api endpoint qp],
        fileOutcome (t (fileRequestOf api endpoint qp))) := by
  simp only [ApiService.fileRequest, if_neg hb]
  rfl

lemma request_noBase (api : ApiService) (method endpoint : String)
    (body : Option Json) (qp : Option QueryParams) (t : Transport)
    (hb : api.baseUrl = "") :
    api.request method endpoint body qp t = ([], .error (.error baseUrlMissingMsg)) := by
  simp only [ApiService.request, if_pos hb]

lemma uploadRequest_noBase (api : ApiService) (endpoint : String)
    (formData : List (String × FormEntry)) (qp : Option QueryParams) (t : Transport)
    (hb : api.baseUrl = "") :
    api.uploadRequest endpoint formData qp t = ([], .error (.error baseUrlMissingMsg)) := by
  simp only [ApiService.uploadRequest, if_pos hb]

lemma fileRequest_noBase (api : ApiService) (endpoint : String)
    (qp : Option QueryParams) (t : Transport) (hb : api.baseUrl = "") :
    api.fileRequest endpoint qp t = ([], .error (.error baseUrlMissingMsg)) := by
  simp only [ApiService.fileRequest, if_pos hb]

lemma statusOutcome_fail (resp : HttpResponse) (hok : ¬ respOk resp) :
    statusOutcome resp = .error (.error (apiErrorMsg resp)) := by
  simp only [statusOutcome, if_neg hok]

lemma statusOutcome_204 (resp : HttpResponse) (h : resp.status = 204) :
    statusOutcome resp = .ok .null := by
  have hok : respOk resp := by constructor <;> omega
  simp only [statusOutcome, if_pos hok, if_pos h]

lemma statusOutcome_ok (resp : HttpResponse) (hok : respOk resp)
    (h : resp.status ≠ 204) :
    statusOutcome resp =
      (match resp.jsonBody with
        | some j => .ok j
        | none => .error (.jsonParse resp.bodyText)) := by
  simp only [statusOutcome, if_pos hok, if_neg h]

lemma fileOutcome_ok (resp : HttpResponse) (hok : respOk resp) :
    fileOutcome resp = .ok { data := resp.blobBytes, contentType := resp.blobType } := by
  simp only [fileOutcome, if_pos hok]

lemma fileOutcome_fail (resp : HttpResponse) (hok : ¬ respOk resp) :
    fileOutcome resp = .error (.error (apiErrorMsg resp)) := by
  simp only [fileOutcome, if_neg hok]

/-- `pat` occurs as a contiguous substring of `s`. -/
def strContains (s pat : String) : Prop := ∃ pre post, s = pre ++ pat ++ post

/-- The `API Error` message carries the fixed tag, the decimal status,
the status text and the body text. -/
lemma apiErrorMsg_contains (resp : HttpResponse) :
    strContains (apiErrorMsg resp) "API Error" ∧
    strContains (apiErrorMsg resp) (toString resp.status) ∧
    strContains (apiErrorMsg resp) resp.statusText ∧
    strContains (apiErrorMsg resp) resp.bodyText := by
  refine ⟨⟨"", ": " ++ toString resp.status ++ " " ++ resp.statusText ++ " - " ++ resp.bodyText, ?_⟩,
    ⟨"API Error: ", " " ++ resp.statusText ++ " - " ++ resp.bodyText, ?_⟩,
    ⟨"API Error: " ++ toString resp.status ++ " ", " - " ++ resp.bodyText, ?_⟩,
    ⟨"API Error: " ++ toString resp.status ++ " " ++ resp.statusText ++ " - ", "", ?_⟩⟩ <;>
  apply String.ext
  · simp only [apiErrorMsg, String.data_append, List.append_assoc, List.nil_append]
    simp
  · simp only [apiErrorMsg, String.data_append, List.append_assoc]
  · simp only [apiErrorMsg, String.data_append, List.append_assoc]
  · simp only [apiErrorMsg, String.data_append, List.append_assoc, List.append_nil]

/-- A concrete client configuration used by concrete scenarios. -/
def exApi : ApiService := { baseUrl := "https://example.com", token := "123" }

/-- A concrete 204 No Content response with an empty, unparsable body. -/
def resp204 : HttpResponse :=
  { status := 204, statusText := "No Content", bodyText := "", jsonBody := none,
    blobBytes := [], blobType := "" }

/-- A concrete 404 response. -/
def resp404 : HttpResponse :=
  { status := 404, statusText := "Not Found", bodyText := "Not found",
    jsonBody := none, blobBytes := [], blobType := "" }

/-- A backend that answers every request with 204. -/
def tr204 : Transport := fun _ => resp204

/-- A backend that answers every request with 404. -/
def tr404 : Transport := fun _ => resp404

/-- C3: `safeAwait` turns a promise resolving with `a` into `[a, null]`
and a promise rejecting with `e` into `[null, e]`, the second element
being the rejection value itself; being a total function of the settled
promise, it never lets the failure escape as an exception. -/
theorem safeAwait_tuple {α ε : Type} :
    (∀ a : α, safeAwait (ε := ε) (Except.ok a) = (some a, none)) ∧
    (∀ e : ε, safeAwait (α := α) (Except.error e) = (none, some e)) :=
  ⟨fun _ => rfl, fun _ => rfl⟩

lemma pathZero (m a : String) :
    "/" ++ m ++ "/actions/" ++ a ++ "/" ++ toString (0 : Int) ++ "/" =
      "/" ++ m ++ "/actions/" ++ a ++ "/0/" := by
  have h0 : toString (0 : Int) = "0" := rfl
  rw [h0]
  apply String.ext
  simp only [String.data_append, List.append_assoc]
  simp

/-- C5: `ExecuteStaticActionService(model, action, params)` behaves
byte-identically to `ExecuteActionService(model, action, pk = 0, params)`:
the whole result — trace of fetches (method, URL, headers, serialized
body) and returned tuple — is equal. -/
theorem executeStaticAction_eq_action_pk0 (api : ApiService)
    (modelClass actionName : String) (parameters : Option Json)
    (queryParams : Option QueryParams) (transport : Transport) :
    ExecuteStaticActionService api modelClass actionName parameters queryParams transport =
      ExecuteActionService api modelClass 0 actionName parameters queryParams transport := by
  simp only [ExecuteStaticActionService, ExecuteActionService, pathZero]

/-- C6: `UploadFileService` with a null file and `RetrieveFileService`
with an empty `fileField` short-circuit with the respective validation
errors — whose messages contain "file is required" and "fileField is
required" — and an empty fetch trace: the transport is never invoked. -/
theorem upload_retrieveFile_validation :
    (∀ (api : ApiService) (modelClass : String) (jsonData : Json)
        (queryParams : Option QueryParams) (transport : Transport),
      UploadFileService api modelClass none jsonData queryParams transport =
        ([], (.null, some (.error "UploadFileService: file is required")))) ∧
    (∀ (api : ApiService) (modelClass : String) (pk : Int) (transport : Transport),
      RetrieveFileService api modelClass pk (some "") transport =
        ([], (none, some (.error "RetrieveFileService: fileField is required")))) ∧
    strContains "UploadFileService: file is required" "file is required" ∧
    strContains "RetrieveFileService: fileField is required" "fileField is required" :=
  ⟨fun _ _ _ _ _ => rfl, fun _ _ _ _ => rfl,
    ⟨"UploadFileService: ", "", by decide⟩,
    ⟨"RetrieveFileService: ", "", by decide⟩⟩

/-- C1 (amended): every helper's tuple has at most one non-null element —
on failure the value is null and the error is non-null; on success the
error is null, but the value may also be null (HTTP 204, or a JSON `null`
body). -/
theorem result_tuple_mutual_exclusion :
    (∀ (api : ApiService) (modelClass : String) (body : Option Json)
        (qp : Option QueryParams) (t : Transport),
      (ListService api modelClass body qp t).2.2 = none ∨
        (ListService api modelClass body qp t).2.1 = Json.null) ∧
    (∀ (api : ApiService) (modelClass : String) (pk : Int)
        (qp : Option QueryParams) (t : Transport),
      (RetrieveService api modelClass pk qp t).2.2 = none ∨
        (RetrieveService api modelClass pk qp t).2.1 = Json.null) ∧
    (∀ (api : ApiService) (modelClass : String) (pk : Int)
        (ff : Option String) (t : Transport),
      (RetrieveFileService api modelClass pk ff t).2.2 = none ∨
        (RetrieveFileService api modelClass pk ff t).2.1 = none) ∧
    (∀ (api : ApiService) (modelClass : String) (body : Json)
        (qp : Option QueryParams) (t : Transport),
      (SaveService api modelClass body qp t).2.2 = none ∨
        (SaveService api modelClass body qp t).2.1 = Json.null) ∧
    (∀ (api : ApiService) (modelClass : String) (pk : Int) (t : Transport),
      (DeleteService api modelClass pk t).2.2 = none ∨
        (DeleteService api modelClass pk t).2.1 = Json.null) ∧
    (∀ (api : ApiService) (modelClass : String) (file : Option FileVal)
        (jsonData : Json) (qp : Option QueryParams) (t : Transport),
      (UploadFileService api modelClass file jsonData qp t).2.2 = none ∨
        (UploadFileService api modelClass file jsonData qp t).2.1 = Json.null) := by
  refine ⟨?_, ?_, ?_, ?_, ?_, ?_⟩
  · intro api modelClass body qp t
    simp only [ListService]
    (repeat' split) <;> simp_all
  · intro api modelClass pk qp t
    simp only [RetrieveService]
    (repeat' split) <;> simp_all
  · intro api modelClass pk ff t
    simp only [RetrieveFileService]
    (repeat' split) <;> simp_all
  · intro api modelClass body qp t
    simp only [SaveService]
    (repeat' split) <;> simp_all
  · intro api modelClass pk t
    simp only [DeleteService]
    (repeat' split) <;> simp_all
  · intro api modelClass file jsonData qp t
    simp only [UploadFileService]
    (repeat' split) <;> simp_all

/-- C1 counterexample: `DeleteService` against a backend answering 204
succeeds with value `null` and error `null` — zero non-null elements, so
"exactly one of the two is non-null" fails on this concrete call. -/
theorem result_tuple_exactly_one_false :
    ¬ (((DeleteService exApi "activities" 1 tr204).2.1 ≠ Json.null ∧
          (DeleteService exApi "activities" 1 tr204).2.2 = none) ∨
        ((DeleteService exApi "activities" 1 tr204).2.1 = Json.null ∧
          (DeleteService exApi "activities" 1 tr204).2.2 ≠ none)) := by
  have hval : (DeleteService exApi "activities" 1 tr204).2.1 = Json.null := rfl
  have herr : (DeleteService exApi "activities" 1 tr204).2.2 = none := rfl
  rintro (⟨h1, _⟩ | ⟨_, h2⟩)
  · exact h1 hval
  · exact h2 herr

/-- C2: on a backend answering with a non-2xx status, every helper returns
`(null, error)` where the error is the thrown `API Error: {status}
{statusText} - {body}` — its message contains the literal "API Error", the
decimal status code, the status text and the response body text. -/
theorem nonOk_helpers_apiError (api : ApiService) (resp : HttpResponse)
    (hb : ¬ api.baseUrl = "") (hok : ¬ respOk resp) :
    (∀ (modelClass : String) (body : Option Json) (qp : Option QueryParams),
      (ListService api modelClass body qp (fun _ => resp)).2 =
        (Json.null, some (.error (apiErrorMsg resp)))) ∧
    (∀ (modelClass : String) (pk : Int) (qp : Option QueryParams),
      (RetrieveService api modelClass pk qp (fun _ => resp)).2 =
        (Json.null, some (.error (apiErrorMsg resp)))) ∧
    (∀ (modelClass : String) (pk : Int) (ff : Option String), ff ≠ some "" →
      (RetrieveFileService api modelClass pk ff (fun _ => resp)).2 =
        (none, some (.error (apiErrorMsg resp)))) ∧
    (∀ (modelClass : String) (body : Json) (qp : Option QueryParams),
      (SaveService api modelClass body qp (fun _ => resp)).2 =
        (Json.null, some (.error (apiErrorMsg resp)))) ∧
    (∀ (modelClass : String) (pk : Int),
      (DeleteService api modelClass pk (fun _ => resp)).2 =
        (Json.null, some (.error (apiErrorMsg resp)))) ∧
    (∀ (modelClass : String) (f : FileVal) (jsonData : Json) (qp : Option QueryParams),
      (UploadFileService api modelClass (some f) jsonData qp (fun _ => resp)).2 =
        (Json.null, some (.error (apiErrorMsg resp)))) ∧
    (Err.error (apiErrorMsg resp)).message = apiErrorMsg resp ∧
    strContains (apiErrorMsg resp) "API Error" ∧
    strContains (apiErrorMsg resp) (toString resp.status) ∧
    strContains (apiErrorMsg resp) resp.statusText ∧
    strContains (apiErrorMsg resp) resp.bodyText := by
  obtain ⟨h1, h2, h3, h4⟩ := apiErrorMsg_contains resp
  refine ⟨?_, ?_, ?_, ?_, ?_, ?_, rfl, h1, h2, h3, h4⟩
  · intro modelClass body qp
    simp only [ListService]
    cases qp <;> cases body <;>
      simp [request_eq, hb, statusOutcome_fail, hok, safeAwait]
  · intro modelClass pk qp
    simp only [RetrieveService]
    cases qp <;>
      simp [request_eq, hb, statusOutcome_fail, hok, safeAwait]
  · intro modelClass pk ff hff
    simp only [RetrieveFileService]
    have hfield : ¬ ff.getD "file" = "" := by
      cases ff with
      | none => simp
      | some s =>
        simp only [Option.getD_some]
        intro h
        exact hff (by rw [h])
    rw [if_neg hfield, fileRequest_eq _ _ _ _ hb]
    simp [fileOutcome_fail, hok, safeAwait]
  · intro modelClass body qp
    simp only [SaveService]
    cases qp <;>
      simp [request_eq, hb, statusOutcome_fail, hok, safeAwait]
  · intro modelClass pk
    simp only [DeleteService]
    simp [request_eq, hb, statusOutcome_fail, hok, safeAwait]
  · intro modelClass f jsonData qp
    simp only [UploadFileService]
    cases qp <;>
      simp [uploadRequest_eq, hb, statusOutcome_fail, hok, safeAwait]

/-- Witness for C2: `DeleteService` against a constant-404 backend
returns the null value and the `API Error` carrying 404. -/
theorem nonOk_helpers_apiError_witness :
    (DeleteService exApi "activities" 1 (fun _ => resp404)).2 =
      (Json.null, some (.error (apiErrorMsg resp404))) :=
  (nonOk_helpers_apiError exApi resp404 (by decide) (by decide)).2.2.2.2.1
    "activities" 1

/-- C4: on HTTP 204, `ApiService.request` resolves `null` without looking
at the body (even one on which JSON parsing would reject); on any other
2xx status it resolves the parsed JSON body. Concretely, `DeleteService`
against a 204 backend returns `(null, null)`, and against a 404 backend
returns `(null, ApiError)` with "404" in the message. -/
theorem request_204_null (api : ApiService) (resp : HttpResponse)
    (hb : ¬ api.baseUrl = "") :
    (resp.status = 204 →
      ∀ (method endpoint : String) (body : Option Json) (qp : Option QueryParams),
        (api.request method endpoint body qp (fun _ => resp)).2 = .ok Json.null) ∧
    (respOk resp → resp.status ≠ 204 →
      ∀ (method endpoint : String) (body : Option Json) (qp : Option QueryParams),
        (api.request method endpoint body qp (fun _ => resp)).2 =
          (match resp.jsonBody with
            | some j => .ok j
            | none => .error (.jsonParse resp.bodyText))) ∧
    (DeleteService exApi "activities" 1 tr204).2 = (Json.null, none) ∧
    (DeleteService exApi "activities" 1 tr404).2 =
      (Json.null, some (.error (apiErrorMsg resp404))) ∧
    strContains (apiErrorMsg resp404) "404" := by
  refine ⟨?_, ?_, rfl, rfl, ⟨"API Error: ", " Not Found - Not found", by decide⟩⟩
  · intro h204 method endpoint body qp
    rw [request_eq api method endpoint body qp _ hb]
    simp [statusOutcome_204 _ h204]
  · intro hok h204 method endpoint body qp
    rw [request_eq api method endpoint body qp _ hb]
    simp [statusOutcome_ok _ hok h204]

/-- Witness for C4: at the concrete 204 response, a concrete request
resolves `null`. -/
theorem request_204_null_witness :
    (exApi.request "DELETE" "/activities/delete/1/" none none (fun _ => resp204)).2 =
      .ok Json.null :=
  (request_204_null exApi resp204 (by decide)).1 rfl "DELETE"
    "/activities/delete/1/" none none

/-- C7: constructing an `ApiService` with an empty `baseUrl` succeeds (the
constructor stores the configuration unconditionally); the failure then
surfaces on every call of `request`, `uploadRequest` or `fileRequest`,
which throw the "baseUrl is missing" configuration error before any fetch
(empty trace), so every helper on such an instance returns a null value
and a non-null error. -/
theorem emptyBaseUrl_fails_at_call (api : ApiService) (hb : api.baseUrl = "") :
    (∀ token : String, ApiService.mkService "" token = { baseUrl := "", token := token }) ∧
    (∀ (method endpoint : String) (body : Option Json) (qp : Option QueryParams)
        (t : Transport),
      api.request method endpoint body qp t = ([], .error (.error baseUrlMissingMsg))) ∧
    (∀ (endpoint : String) (formData : List (String × FormEntry))
        (qp : Option QueryParams) (t : Transport),
      api.uploadRequest endpoint formData qp t = ([], .error (.error baseUrlMissingMsg))) ∧
    (∀ (endpoint : String) (qp : Option QueryParams) (t : Transport),
      api.fileRequest endpoint qp t = ([], .error (.error baseUrlMissingMsg))) ∧
    strContains baseUrlMissingMsg "baseUrl is missing" ∧
    (∀ (modelClass : String) (body : Option Json) (qp : Option QueryParams)
        (t : Transport),
      ListService api modelClass body qp t =
        ([], (Json.null, some (.error baseUrlMissingMsg)))) ∧
    (∀ (modelClass : String) (pk : Int) (qp : Option QueryParams) (t : Transport),
      RetrieveService api modelClass pk qp t =
        ([], (Json.null, some (.error baseUrlMissingMsg)))) ∧
    (∀ (modelClass : String) (pk : Int) (ff : Option String) (t : Transport),
      (RetrieveFileService api modelClass pk ff t).1 = [] ∧
        (RetrieveFileService api modelClass pk ff t).2.1 = none ∧
        (RetrieveFileService api modelClass pk ff t).2.2 ≠ none) ∧
    (∀ (modelClass : String) (body : Json) (qp : Option QueryParams) (t : Transport),
      SaveService api modelClass body qp t =
        ([], (Json.null, some (.error baseUrlMissingMsg)))) ∧
    (∀ (modelClass : String) (pk : Int) (t : Transport),
      DeleteService api modelClass pk t =
        ([], (Json.null, some (.error baseUrlMissingMsg)))) ∧
    (∀ (modelClass : String) (file : Option FileVal) (jsonData : Json)
        (qp : Option QueryParams) (t : Transport),
      (UploadFileService api modelClass file jsonData qp t).1 = [] ∧
        (UploadFileService api modelClass file jsonData qp t).2.1 = Json.null ∧
        (UploadFileService api modelClass file jsonData qp t).2.2 ≠ none) := by
  refine ⟨fun _ => rfl, ?_, ?_, ?_, ⟨"ApiService: ",
    ". Ensure it is provided when creating the ApiService instance.",
    by decide⟩, ?_, ?_, ?_, ?_, ?_, ?_⟩
  · intro method endpoint body qp t
    exact request_noBase api method endpoint body qp t hb
  · intro endpoint formData qp t
    exact uploadRequest_noBase api endpoint formData qp t hb
  · intro endpoint qp t
    exact fileRequest_noBase api endpoint qp t hb
  · intro modelClass body qp t
    simp only [ListService]
    cases qp <;> cases body <;>
      simp [request_noBase _ _ _ _ _ _ hb, safeAwait]
  · intro modelClass pk qp t
    simp only [RetrieveService]
    cases qp <;> simp [request_noBase _ _ _ _ _ _ hb, safeAwait]
  · intro modelClass pk ff t
    simp only [RetrieveFileService]
    split
    · simp
    · rw [fileRequest_noBase _ _ _ _ hb]
      simp [safeAwait]
  · intro modelClass body qp t
    simp only [SaveService]
    cases qp <;> simp [request_noBase _ _ _ _ _ _ hb, safeAwait]
  · intro modelClass pk t
    simp only [DeleteService]
    simp [request_noBase _ _ _ _ _ _ hb, safeAwait]
  · intro modelClass file jsonData qp t
    simp only [UploadFileService]
    cases file
    · simp
    · cases qp <;> simp [uploadRequest_noBase _ _ _ _ _ hb, safeAwait]

/-- Witness for C7: on the instance built with an empty `baseUrl`, a
concrete `ListService` call fails with the configuration error and an
empty fetch trace. -/
theorem emptyBaseUrl_fails_at_call_witness :
    ListService { baseUrl := "", token := "tok" } "users" none none tr204 =
      ([], (Json.null, some (.error baseUrlMissingMsg))) :=
  (emptyBaseUrl_fails_at_call { baseUrl := "", token := "tok" } rfl).2.2.2.2.2.1
    "users" none none tr204

lemma url_query_merge (x : String) :
    x ++ "?" ++ "file-field=file" = x ++ "?file-field=file" := by
  apply String.ext
  simp only [String.data_append, List.append_assoc]
  simp

lemma buildUrl_fileField (base ep : String) :
    buildUrl base ep (some [("file-field", "file")]) =
      stripTrailingSlash base ++ "/" ++ stripLeadingSlash ep ++ "?file-field=file" := by
  simp only [buildUrl]
  rw [if_pos (by decide : ([("file-field", "file")] : QueryParams).length > 0)]
  have hq : queryString [("file-field", "file")] = "file-field=file" := rfl
  rw [hq, url_query_merge]

/-- C8: the URL is the normalized base joined to the endpoint; a provided,
non-empty `queryParams` mapping contributes `?` followed by its
`key=value` pairs in insertion order joined by `&` (the concrete mapping
a ↦ 1, b ↦ 2 yields exactly `?a=1&b=2`); an absent or empty mapping
appends nothing; and the single fetch a `request` issues carries exactly
this URL. -/
theorem url_construction_order (base endpoint : String) (l : QueryParams)
    (hl : l ≠ []) :
    buildUrl base endpoint (some l) =
      stripTrailingSlash base ++ "/" ++ stripLeadingSlash endpoint ++ "?" ++
        String.intercalate "&"
          (l.map fun p => formUrlEncode p.1 ++ "=" ++ formUrlEncode p.2) ∧
    buildUrl base endpoint none =
      stripTrailingSlash base ++ "/" ++ stripLeadingSlash endpoint ∧
    buildUrl base endpoint (some []) =
      stripTrailingSlash base ++ "/" ++ stripLeadingSlash endpoint ∧
    (∀ (api : ApiService) (method : String) (body : Option Json)
        (qp : Option QueryParams) (t : Transport), ¬ api.baseUrl = "" →
      (api.request method endpoint body qp t).1.map FetchRequest.url =
        [buildUrl api.baseUrl endpoint qp]) ∧
    buildUrl "https://example.com" "/activities/list/" (some [("a", "1"), ("b", "2")]) =
      "https://example.com/activities/list/?a=1&b=2" := by
  refine ⟨?_, rfl, rfl, ?_, by decide⟩
  · simp only [buildUrl, queryString]
    rw [if_pos (by simpa [List.length_pos] using hl)]
  · intro api method body qp t hb
    rw [request_eq api method endpoint body qp t hb]
    rfl

/-- Witness for C8: the order-preservation equation evaluated at the
concrete two-entry mapping. -/
theorem url_construction_order_witness :
    buildUrl "https://example.com" "/activities/list/" (some [("a", "1"), ("b", "2")]) =
      stripTrailingSlash "https://example.com" ++ "/" ++
        stripLeadingSlash "/activities/list/" ++ "?" ++
        String.intercalate "&"
          ([(("a" : String), ("1" : String)), ("b", "2")].map
            fun p => formUrlEncode p.1 ++ "=" ++ formUrlEncode p.2) :=
  (url_construction_order "https://example.com" "/activities/list/"
    [("a", "1"), ("b", "2")] (by decide)).1

/-- C9: `ListService` without a body behaves identically to an explicit
empty object: the default body is `\x7b\x7d` serialized, and the single
POST it issues to `/{model}/list/` carries exactly that body. -/
theorem list_default_body (api : ApiService) (hb : ¬ api.baseUrl = "") :
    (∀ (modelClass : String) (qp : Option QueryParams) (t : Transport),
      ListService api modelClass none qp t =
        ListService api modelClass (some (.obj [])) qp t) ∧
    Json.stringify (.obj []) = "\x7b\x7d" ∧
    (∀ (modelClass : String) (qp : Option QueryParams) (t : Transport),
      (ListService api modelClass none qp t).1 =
        [{ method := "POST",
           url := buildUrl api.baseUrl ("/" ++ modelClass ++ "/list/") qp,
           headers := [("Authorization", "Token " ++ api.token),
             ("Content-Type", "application/json")],
           body := .text "\x7b\x7d" }]) := by
  have hs : Json.stringify (.obj []) = "\x7b\x7d" := rfl
  refine ⟨?_, hs, ?_⟩
  · intro modelClass qp t
    cases qp <;> rfl
  · intro modelClass qp t
    cases qp <;>
      (simp only [ListService]
       rw [request_eq _ _ _ _ _ _ hb]
       (repeat' split) <;> simp [jsonRequestOf, jsTruthy, hs])

/-- Witness for C9: the concrete default-body call equals the explicit
empty-object call. -/
theorem list_default_body_witness :
    ListService exApi "activities" none none tr204 =
      ListService exApi "activities" (some (.obj [])) none tr204 :=
  (list_default_body exApi (by decide)).1 "activities" none tr204

/-- A concrete successful file-download response. -/
def respFile : HttpResponse :=
  { status := 200, statusText := "OK", bodyText := "", jsonBody := none,
    blobBytes := [72, 101, 108, 108, 111], blobType := "text/plain" }

/-- C10: `RetrieveFileService` with the `fileField` argument omitted does
not fail validation: it defaults the field to "file", issues one GET to
`/{model}/retrieve-file/{pk}/?file-field=file`, and on a 2xx response
returns the payload made of the response bytes and the blob's content
type. -/
theorem retrieveFile_default_field (api : ApiService) (resp : HttpResponse)
    (hb : ¬ api.baseUrl = "") (hok : respOk resp) :
    ∀ (modelClass : String) (pk : Int),
      RetrieveFileService api modelClass pk none (fun _ => resp) =
        ([{ method := "GET",
            url := stripTrailingSlash api.baseUrl ++ "/" ++
              stripLeadingSlash
                ("/" ++ modelClass ++ "/retrieve-file/" ++ toString pk ++ "/") ++
              "?file-field=file",
            headers := [("Authorization", "Token " ++ api.token)],
            body := .absent }],
          (some { data := resp.blobBytes, contentType := resp.blobType }, none)) := by
  intro modelClass pk
  simp only [RetrieveFileService, Option.getD_none]
  rw [if_neg (by decide : ¬ ("file" : String) = "")]
  rw [fileRequest_eq _ _ _ _ hb]
  simp [fileRequestOf, fileOutcome_ok _ hok, safeAwait, buildUrl_fileField]

/-- Witness for C10: the concrete default-field download against a 200
backend returns the bytes and content type. -/
theorem retrieveFile_default_field_witness :
    RetrieveFileService exApi "documents" 123 none (fun _ => respFile) =
      ([{ method := "GET",
          url := stripTrailingSlash exApi.baseUrl ++ "/" ++
            stripLeadingSlash
              ("/" ++ "documents" ++ "/retrieve-file/" ++ toString (123 : Int) ++ "/") ++
            "?file-field=file",
          headers := [("Authorization", "Token " ++ exApi.token)],
          body := .absent }],
        (some { data := respFile.blobBytes, contentType := respFile.blobType }, none)) :=
  retrieveFile_default_field exApi respFile (by decide) (by decide) "documents" 123
